import Mathlib

/-!
Verification of the resilience / caching control plane of the Things MCP
server (`things_mcp`): the result cache (`cache.py`), circuit breaker,
dead-letter queue and rate limiter (`utils.py`), and the retry executor
(`handlers.py`), shallowly embedded in Lean.

Machine words are modelled as `Nat` reduced modulo `2^32` where the Python
code relies on 32-bit arithmetic (inside MD5); wall-clock instants are `ℚ`
passed explicitly to each operation that reads the clock.
-/

set_option maxRecDepth 100000

namespace ThingsMCP

/-! ## MD5 (as used by `hashlib.md5(...).hexdigest()` in `cache.py`)

`ThingsCache._make_key` hashes `f"{operation}:{sorted_params}"` with MD5 and
uses the hex digest as the cache key, and `ThingsCache.invalidate` compares
key strings against the first 8 hex characters of `md5(f"{operation}:")`.
So the byte-level MD5 function is part of the observable behaviour and is
embedded here in full (RFC 1321). -/

/-- The 64 round constants `K[i] = floor(2^32 * |sin(i+1)|)` of MD5. -/
def md5K : List Nat :=
  [0xd76aa478, 0xe8c7b756, 0x242070db, 0xc1bdceee,
   0xf57c0faf, 0x4787c62a, 0xa8304613, 0xfd469501,
   0x698098d8, 0x8b44f7af, 0xffff5bb1, 0x895cd7be,
   0x6b901122, 0xfd987193, 0xa679438e, 0x49b40821,
   0xf61e2562, 0xc040b340, 0x265e5a51, 0xe9b6c7aa,
   0xd62f105d, 0x02441453, 0xd8a1e681, 0xe7d3fbc8,
   0x21e1cde6, 0xc33707d6, 0xf4d50d87, 0x455a14ed,
   0xa9e3e905, 0xfcefa3f8, 0x676f02d9, 0x8d2a4c8a,
   0xfffa3942, 0x8771f681, 0x6d9d6122, 0xfde5380c,
   0xa4beea44, 0x4bdecfa9, 0xf6bb4b60, 0xbebfbc70,
   0x289b7ec6, 0xeaa127fa, 0xd4ef3085, 0x04881d05,
   0xd9d4d039, 0xe6db99e5, 0x1fa27cf8, 0xc4ac5665,
   0xf4292244, 0x432aff97, 0xab9423a7, 0xfc93a039,
   0x655b59c3, 0x8f0ccc92, 0xffeff47d, 0x85845dd1,
   0x6fa87e4f, 0xfe2ce6e0, 0xa3014314, 0x4e0811a1,
   0xf7537e82, 0xbd3af235, 0x2ad7d2bb, 0xeb86d391]

/-- The per-round left-rotation amounts of MD5. -/
def md5S : List Nat :=
  [7, 12, 17, 22, 7, 12, 17, 22, 7, 12, 17, 22, 7, 12, 17, 22,
   5, 9, 14, 20, 5, 9, 14, 20, 5, 9, 14, 20, 5, 9, 14, 20,
   4, 11, 16, 23, 4, 11, 16, 23, 4, 11, 16, 23, 4, 11, 16, 23,
   6, 10, 15, 21, 6, 10, 15, 21, 6, 10, 15, 21, 6, 10, 15, 21]

/-- 32-bit left rotation. -/
def rotl32 (x c : Nat) : Nat :=
  ((x <<< c) % 4294967296) ||| (x >>> (32 - c))

/-- The MD5 round mixing function (four phases of 16 rounds). -/
def md5F (i b c d : Nat) : Nat :=
  if i < 16 then (b &&& c) ||| ((b ^^^ 0xffffffff) &&& d)
  else if i < 32 then (d &&& b) ||| ((d ^^^ 0xffffffff) &&& c)
  else if i < 48 then b ^^^ c ^^^ d
  else c ^^^ (b ||| (d ^^^ 0xffffffff))

/-- The MD5 message-word index schedule. -/
def md5G (i : Nat) : Nat :=
  if i < 16 then i
  else if i < 32 then (5 * i + 1) % 16
  else if i < 48 then (3 * i + 5) % 16
  else (7 * i) % 16

/-- One MD5 round on the state `(a, b, c, d)` with chunk words `M`. -/
def md5Step (M : List Nat) (st : Nat × Nat × Nat × Nat) (i : Nat) :
    Nat × Nat × Nat × Nat :=
  let a := st.1
  let b := st.2.1
  let c := st.2.2.1
  let d := st.2.2.2
  let f := (md5F i b c d + a + md5K.getD i 0 + M.getD (md5G i) 0) % 4294967296
  (d, (b + rotl32 f (md5S.getD i 0)) % 4294967296, b, c)

/-- Decode a list of bytes into little-endian 32-bit words. -/
def toWordsLE : List Nat → List Nat
  | b0 :: b1 :: b2 :: b3 :: rest =>
      (b0 + 256 * b1 + 65536 * b2 + 16777216 * b3) :: toWordsLE rest
  | _ => []

/-- Process one 64-byte chunk, adding the round output into the state. -/
def md5ProcessChunk (st : Nat × Nat × Nat × Nat) (chunk : List Nat) :
    Nat × Nat × Nat × Nat :=
  let M := toWordsLE chunk
  let r := (List.range 64).foldl (md5Step M) st
  ((st.1 + r.1) % 4294967296, (st.2.1 + r.2.1) % 4294967296,
   (st.2.2.1 + r.2.2.1) % 4294967296, (st.2.2.2 + r.2.2.2) % 4294967296)

/-- Split a byte list into 64-byte chunks (`fuel` bounds the number of
steps; `fuel = l.length` always suffices since each step consumes at least
one byte). -/
def chunks64Go : Nat → List Nat → List (List Nat)
  | 0, _ => []
  | _, [] => []
  | fuel + 1, x :: xs => (x :: xs).take 64 :: chunks64Go fuel ((x :: xs).drop 64)

/-- Split a byte list into 64-byte chunks. -/
def chunks64 (l : List Nat) : List (List Nat) :=
  chunks64Go l.length l

/-- The 8 little-endian bytes of the 64-bit message bit length. -/
def lenBytesLE (n : Nat) : List Nat :=
  (List.range 8).map (fun i => (n >>> (8 * i)) % 256)

/-- MD5 padding: `0x80`, zeros to 56 mod 64, then the bit length. -/
def md5Pad (msg : List Nat) : List Nat :=
  let len := msg.length
  let padZeros := (64 + 56 - ((len + 1) % 64)) % 64
  msg ++ [0x80] ++ List.replicate padZeros 0 ++ lenBytesLE (8 * len)

/-- The 4 little-endian bytes of a 32-bit word. -/
def wordBytesLE (w : Nat) : List Nat :=
  [w % 256, (w >>> 8) % 256, (w >>> 16) % 256, (w >>> 24) % 256]

/-- The 16-byte MD5 digest of a byte list. -/
def md5Digest (msg : List Nat) : List Nat :=
  let st := (chunks64 (md5Pad msg)).foldl md5ProcessChunk
    (0x67452301, 0xefcdab89, 0x98badcfe, 0x10325476)
  wordBytesLE st.1 ++ wordBytesLE st.2.1 ++ wordBytesLE st.2.2.1 ++
    wordBytesLE st.2.2.2

/-- A nibble as a lowercase hex character. -/
def hexChar (n : Nat) : Char :=
  if n < 10 then Char.ofNat (48 + n) else Char.ofNat (87 + n)

/-- A byte as two lowercase hex characters. -/
def byteHex (b : Nat) : List Char :=
  [hexChar (b / 16), hexChar (b % 16)]

/-- The lowercase hex digest string, as `hashlib.md5(...).hexdigest()`. -/
def hexdigest (msg : List Nat) : String :=
  ⟨(md5Digest msg).foldr (fun b acc => byteHex b ++ acc) []⟩

/-- UTF-8 bytes of a string; all strings hashed by the cache claims are
ASCII, where UTF-8 agrees with the code points. -/
def strBytes (s : String) : List Nat :=
  s.toList.map Char.toNat

/-- `hashlib.md5(s.encode()).hexdigest()` for an ASCII string `s`. -/
def md5Hex (s : String) : String :=
  hexdigest (strBytes s)

/-! ## ResultCache (`cache.py`, class `ThingsCache`)

Cache state is the Python instance state: the `cache` dict (modelled as an
association list with unique keys, insertion-ordered like a Python dict),
`default_ttl`, and the hit/miss counters.  Wall-clock reads (`time.time()`)
are passed in as an explicit `now : ℚ`. -/

/-- Keyword parameters of an operation (`**kwargs`), with string values:
the JSON-serialisable mappings the cache claims exercise. -/
abbrev Params := List (String × String)

/-- `json.dumps(kwargs, sort_keys=True)` for a string-valued mapping:
keys sorted lexicographically, default separators `", "` and `": "`. -/
def jsonDumps (ps : Params) : String :=
  let sorted := ps.mergeSort (fun a b => a.1 ≤ b.1)
  "\x7b" ++ String.intercalate ", "
    (sorted.map (fun p => "\"" ++ p.1 ++ "\": \"" ++ p.2 ++ "\"")) ++ "\x7d"

/-- Truthiness of an optional-string argument defaulting to `None`:
`None` and `""` are falsy, any other string truthy. -/
def pyTruthyStr : Option String → Bool
  | none => false
  | some s => !(s == "")

/-- Replace the value at `k` if present (Python dict assignment keeps the
slot), else append a new key. -/
def dictSet (m : List (String × α)) (k : String) (v : α) :
    List (String × α) :=
  if m.any (fun e => e.1 == k) then
    m.map (fun e => if e.1 == k then (k, v) else e)
  else m ++ [(k, v)]

/-- `ThingsCache` instance state: cache dict of key → (value, expiry time),
default TTL, and hit/miss counters. -/
structure ThingsCache (α : Type) where
  cache : List (String × α × ℚ)
  default_ttl : ℚ
  hit_count : Nat
  miss_count : Nat

/-- `ThingsCache.__init__(default_ttl=300)`. -/
def ThingsCache.init (α : Type) (default_ttl : ℚ := 300) : ThingsCache α :=
  ⟨[], default_ttl, 0, 0⟩

/-- `ThingsCache._make_key`: `md5(f"{operation}:{sorted_params}")`
hex digest. -/
def ThingsCache.make_key (operation : String) (kwargs : Params) : String :=
  md5Hex (operation ++ ":" ++ jsonDumps kwargs)

/-- `ThingsCache.get`: return the cached value if present and unexpired
(counting a hit), else evict an expired entry and count a miss. -/
def ThingsCache.get (c : ThingsCache α) (operation : String)
    (kwargs : Params) (now : ℚ) : Option α × ThingsCache α :=
  let key := ThingsCache.make_key operation kwargs
  match c.cache.find? (fun e => e.1 == key) with
  | some e =>
      if now < e.2.2 then
        (some e.2.1, { c with hit_count := c.hit_count + 1 })
      else
        (none,
         { c with
            cache := c.cache.filter (fun e => !(e.1 == key))
            miss_count := c.miss_count + 1 })
  | none => (none, { c with miss_count := c.miss_count + 1 })

/-- `ThingsCache.set`: store the value with expiry `now + ttl`
(`default_ttl` when `ttl` is `None`). -/
def ThingsCache.set (c : ThingsCache α) (operation : String) (value : α)
    (ttl : Option ℚ) (kwargs : Params) (now : ℚ) : ThingsCache α :=
  let key := ThingsCache.make_key operation kwargs
  let t := ttl.getD c.default_ttl
  { c with cache := dictSet c.cache key (value, now + t) }

/-- `ThingsCache.invalidate(operation=None, **kwargs)`: with truthy
`operation` and non-empty `kwargs` delete that one key; with truthy
`operation` alone delete every key that starts with the first 8 hex
characters of `md5(f"{operation}:")`; otherwise clear the whole cache. -/
def ThingsCache.invalidate (c : ThingsCache α) (operation : Option String)
    (kwargs : Params) : ThingsCache α :=
  if pyTruthyStr operation && !kwargs.isEmpty then
    let key := ThingsCache.make_key (operation.getD "") kwargs
    { c with cache := c.cache.filter (fun e => !(e.1 == key)) }
  else if pyTruthyStr operation then
    let p := (md5Hex ((operation.getD "") ++ ":")).take 8
    { c with cache := c.cache.filter (fun e => !(e.1.startsWith p)) }
  else
    { c with cache := [] }

/-- `ThingsCache.cleanup_expired`: drop every entry with
`now >= expiry`, returning how many were removed. -/
def ThingsCache.cleanup_expired (c : ThingsCache α) (now : ℚ) :
    Nat × ThingsCache α :=
  let keep := c.cache.filter (fun e => !(decide (now ≥ e.2.2)))
  (c.cache.length - keep.length, { c with cache := keep })

/-- The dictionary returned by `ThingsCache.get_stats` (the hit rate is
kept as the rational the code formats to one decimal place). -/
structure CacheStats where
  entries : Nat
  hits : Nat
  misses : Nat
  hit_rate : ℚ
  total_requests : Nat
deriving DecidableEq

/-- `ThingsCache.get_stats`. -/
def ThingsCache.get_stats (c : ThingsCache α) : CacheStats :=
  let total := c.hit_count + c.miss_count
  { entries := c.cache.length
    hits := c.hit_count
    misses := c.miss_count
    hit_rate := if total > 0 then (c.hit_count : ℚ) / total * 100 else 0
    total_requests := total }

/-! ## CircuitBreaker (`utils.py`, class `CircuitBreaker`)

The three string constants `CLOSED`/`OPEN`/`HALF_OPEN` become an inductive
state; `time.time()` reads are explicit `now : ℚ` arguments. -/

/-- The breaker's `self.state` value. -/
inductive BreakerState
  | closed
  | opened
  | halfOpen
deriving DecidableEq

/-- `CircuitBreaker` instance state. -/
structure CircuitBreaker where
  state : BreakerState
  failure_count : Nat
  failure_threshold : Nat
  recovery_timeout : ℚ
  last_failure_time : ℚ
deriving DecidableEq

/-- `CircuitBreaker.__init__(failure_threshold=5, recovery_timeout=60)`. -/
def CircuitBreaker.init (failure_threshold : Nat := 5)
    (recovery_timeout : ℚ := 60) : CircuitBreaker :=
  ⟨.closed, 0, failure_threshold, recovery_timeout, 0⟩

/-- `CircuitBreaker.record_failure`: bump the counter, stamp the failure
time, and open the circuit once the counter reaches the threshold. -/
def CircuitBreaker.record_failure (b : CircuitBreaker) (now : ℚ) :
    CircuitBreaker :=
  let n := b.failure_count + 1
  { b with
     failure_count := n
     last_failure_time := now
     state := if n ≥ b.failure_threshold then .opened else b.state }

/-- `CircuitBreaker.record_success`: close from half-open (resetting the
counter), reset the counter when closed, do nothing when open. -/
def CircuitBreaker.record_success (b : CircuitBreaker) : CircuitBreaker :=
  match b.state with
  | .halfOpen => { b with state := .closed, failure_count := 0 }
  | .closed => { b with failure_count := 0 }
  | .opened => b

/-- `CircuitBreaker.allow_operation`: returns the decision together with
the (possibly updated) breaker, since the Open→Half-Open transition
happens inside this call. -/
def CircuitBreaker.allow_operation (b : CircuitBreaker) (now : ℚ) :
    Bool × CircuitBreaker :=
  match b.state with
  | .closed => (true, b)
  | .opened =>
      if now - b.last_failure_time > b.recovery_timeout then
        (true, { b with state := .halfOpen })
      else (false, b)
  | .halfOpen => (true, b)

/-- One externally visible breaker call, tagged with the `time.time()`
value it observes where it reads the clock. -/
inductive BreakerEvent
  | fail (t : ℚ)
  | succ
  | allow (t : ℚ)

/-- The state reached after one breaker call (the boolean result of
`allow_operation` is discarded here). -/
def CircuitBreaker.step (b : CircuitBreaker) : BreakerEvent → CircuitBreaker
  | .fail t => b.record_failure t
  | .succ => b.record_success
  | .allow t => (b.allow_operation t).2

/-- The breaker state after a sequence of calls. -/
def CircuitBreaker.run (b : CircuitBreaker) (es : List BreakerEvent) :
    CircuitBreaker :=
  es.foldl CircuitBreaker.step b

/-- The transition relation claimed for the breaker: one call either
leaves the state unchanged or takes one of the four labelled edges with
its trigger. -/
def BreakerEdgeOK (b : CircuitBreaker) (e : BreakerEvent) : Prop :=
  (b.step e).state = b.state ∨
  (b.state = .closed ∧ (b.step e).state = .opened ∧ (∃ t, e = .fail t) ∧
    b.failure_count + 1 ≥ b.failure_threshold) ∨
  (b.state = .opened ∧ (b.step e).state = .halfOpen ∧
    (∃ t, e = .allow t ∧ t - b.last_failure_time > b.recovery_timeout)) ∨
  (b.state = .halfOpen ∧ (b.step e).state = .closed ∧ e = .succ) ∨
  (b.state = .halfOpen ∧ (b.step e).state = .opened ∧ (∃ t, e = .fail t))

/-! ## DeadLetterQueue (`utils.py`, class `DeadLetterQueue`)

The in-memory `self.queue` list; the mirrored on-disk JSON file
(`_save_queue`) is a verbatim dump of this list and carries no further
state. -/

/-- One queue element, as built by `add_failed_operation` (the
human-readable `added_at` string is a rendering of `timestamp`). -/
structure DeadLetterEntry where
  operation : String
  params : Params
  error : String
  attempts : Nat
  timestamp : ℚ
deriving DecidableEq

/-- `DeadLetterQueue.add_failed_operation(operation, params, error,
attempts=1)`, with `now` the `time.time()` stamp. -/
def add_failed_operation (q : List DeadLetterEntry) (operation : String)
    (params : Params) (error : String) (attempts : Nat) (now : ℚ) :
    List DeadLetterEntry :=
  q ++ [⟨operation, params, error, attempts, now⟩]

/-- Outcome of replaying one DLQ entry through
`retry_operation(lambda: execute_url(construct_url(...)))`: a truthy
result, a falsy result, or an exception escaping `construct_url` /
`execute_url` setup. -/
inductive ReplayOutcome
  | ok
  | failed
  | raised (msg : String)
deriving DecidableEq

/-- Whether a replay outcome counts as success in `retry_all`. -/
def ReplayOutcome.isOk : ReplayOutcome → Bool
  | .ok => true
  | _ => false

/-- The dictionary returned by `DeadLetterQueue.retry_all`. -/
structure RetryAllResult where
  success : Bool
  retried : Nat
  failed : Nat
deriving DecidableEq

/-- One iteration of the `retry_all` loop over
`(success_count, failure_count, remaining_queue)`. -/
def retryAllStep (outcome : DeadLetterEntry → ReplayOutcome)
    (acc : Nat × Nat × List DeadLetterEntry) (entry : DeadLetterEntry) :
    Nat × Nat × List DeadLetterEntry :=
  match outcome entry with
  | .ok => (acc.1 + 1, acc.2.1, acc.2.2)
  | _ => (acc.1, acc.2.1 + 1,
          acc.2.2 ++ [{ entry with attempts := entry.attempts + 1 }])

/-- `DeadLetterQueue.retry_all`, with `outcome` abstracting what the
re-invocation of each entry does now; returns the result dictionary and
the new `self.queue`. -/
def retry_all (q : List DeadLetterEntry)
    (outcome : DeadLetterEntry → ReplayOutcome) :
    RetryAllResult × List DeadLetterEntry :=
  if q.isEmpty then (⟨true, 0, 0⟩, q)
  else
    let r := q.foldl (retryAllStep outcome) (0, 0, [])
    (⟨r.2.1 == 0, r.1 + r.2.1, r.2.1⟩, r.2.2)

/-! ## RetryExecutor (`handlers.py`, `retry_operation`)

`func` is abstracted as a stream `outcomes : Nat → Outcome α` giving what
the `attempt`-th call of `func()` does; `ts` gives the `time.time()` value
each `record_failure` stamps, `js` the `random.uniform(0.8, 1.2)` jitter
sample of each attempt.  The model returns, besides the Python return
value, the final breaker and DLQ state, the list of back-off sleep
durations performed, and the number of `func()` invocations. -/

/-- What one call of `func()` does: return a truthy value, return a falsy
value, or raise an exception whose `str` is `msg`. -/
inductive Outcome (α : Type)
  | ok (v : α)
  | falsy
  | raises (msg : String)

/-- Whether the attempt is treated as a failure by the retry loop. -/
def Outcome.isFailing : Outcome α → Bool
  | .ok _ => false
  | _ => true

/-- The `str(last_exception)` text a failing attempt leaves behind. -/
def Outcome.errMsg : Outcome α → String
  | .ok _ => ""
  | .falsy => "Operation returned False"
  | .raises m => m

/-- State left by the `for attempt in range(max_retries)` loop. -/
structure LoopResult (α : Type) where
  result : Option α
  breaker : CircuitBreaker
  lastExc : Option String
  sleeps : List ℚ
  calls : Nat
  failures : Nat

/-- The retry loop of `retry_operation`: on a truthy result record a
success and return it; on a falsy result record a failure and go straight
to the next attempt; on an exception record a failure and, if attempts
remain, sleep `delay * 2^attempt * jitter` first. -/
def retryLoop (outcomes : Nat → Outcome α) (ts js : Nat → ℚ)
    (max_retries : Nat) (delay : ℚ) :
    Nat → Nat → CircuitBreaker → Option String → LoopResult α
  | _, 0, b, lastExc => ⟨none, b, lastExc, [], 0, 0⟩
  | attempt, fuel + 1, b, lastExc =>
    match outcomes attempt with
    | .ok v => ⟨some v, b.record_success, lastExc, [], 1, 0⟩
    | .falsy =>
        let b' := b.record_failure (ts attempt)
        let r := retryLoop outcomes ts js max_retries delay (attempt + 1)
          fuel b' (some "Operation returned False")
        ⟨r.result, r.breaker, r.lastExc, r.sleeps, r.calls + 1,
         r.failures + 1⟩
    | .raises m =>
        let b' := b.record_failure (ts attempt)
        let sl := if attempt < max_retries - 1 then
            [delay * 2 ^ attempt * js attempt] else []
        let r := retryLoop outcomes ts js max_retries delay (attempt + 1)
          fuel b' (some m)
        ⟨r.result, r.breaker, r.lastExc, sl ++ r.sleeps, r.calls + 1,
         r.failures + 1⟩

/-- What `retry_operation` leaves behind: its Python return value
(`some v` for a truthy result, `none` for `False`), the breaker, the DLQ,
the back-off sleeps performed and the number of `func()` calls. -/
structure RetryResult (α : Type) where
  result : Option α
  breaker : CircuitBreaker
  dlq : List DeadLetterEntry
  sleeps : List ℚ
  calls : Nat

/-- `retry_operation(func, max_retries=3, delay=1, operation_name=None,
params=None)`.  `available` is the result of
`app_state.wait_for_app_availability(timeout=5)`, `tGate` the clock value
the breaker gate observes, `tDlq` the stamp of a DLQ append. -/
def retry_operation (available : Bool) (tGate : ℚ)
    (outcomes : Nat → Outcome α) (ts js : Nat → ℚ)
    (max_retries : Nat) (delay : ℚ) (operation_name : Option String)
    (params : Params) (tDlq : ℚ) (breaker : CircuitBreaker)
    (dlq : List DeadLetterEntry) : RetryResult α :=
  if !available then ⟨none, breaker, dlq, [], 0⟩
  else
    let g := breaker.allow_operation tGate
    if !g.1 then ⟨none, g.2, dlq, [], 0⟩
    else
      let r := retryLoop outcomes ts js max_retries delay 0 max_retries
        g.2 none
      match r.result with
      | some v => ⟨some v, r.breaker, dlq, r.sleeps, r.calls⟩
      | none =>
          let dlq' :=
            if pyTruthyStr operation_name && !params.isEmpty &&
                r.lastExc.isSome then
              add_failed_operation dlq (operation_name.getD "") params
                (r.lastExc.getD "") max_retries tDlq
            else dlq
          ⟨none, r.breaker, dlq', r.sleeps, r.calls⟩

/-- The attempt indices `attempt, attempt+1, ...` of a loop with `fuel`
iterations left. -/
def attemptIdxs : Nat → Nat → List Nat
  | _, 0 => []
  | attempt, f + 1 => attempt :: attemptIdxs (attempt + 1) f

/-- The back-off sleeps the loop performs for the attempt indices `is`:
one sleep of `delay * 2^i * jitter` per exception-raising attempt `i`
that is not the last attempt. -/
def backoffSleeps (outcomes : Nat → Outcome α) (js : Nat → ℚ)
    (max_retries : Nat) (delay : ℚ) (is : List Nat) : List ℚ :=
  is.filterMap (fun i =>
    match outcomes i with
    | .raises _ =>
        if i < max_retries - 1 then some (delay * 2 ^ i * js i) else none
    | _ => none)

/-! ## RateLimiter (`utils.py`, class `RateLimiter`)

`wait_if_needed` reads the clock (`t1`), sleeps
`operation_interval - (t1 - last_operation_time)` when that gap is still
smaller than the interval, reads the clock again (`t2`) and stamps it.
Only the second read enters the new state; the sleep semantics
(`t1 + sleepDuration ≤ t2`, clock monotone) are hypotheses of the
theorems about it. -/

/-- `RateLimiter` instance state. -/
structure RateLimiter where
  operations_per_minute : ℚ
  operation_interval : ℚ
  last_operation_time : ℚ
deriving DecidableEq

/-- `RateLimiter.__init__(operations_per_minute=30)`. -/
def RateLimiter.init (operations_per_minute : ℚ := 30) : RateLimiter :=
  ⟨operations_per_minute, 60 / operations_per_minute, 0⟩

/-- How long `wait_if_needed` sleeps when it reads `t1` on entry. -/
def RateLimiter.sleepDuration (rl : RateLimiter) (t1 : ℚ) : ℚ :=
  if t1 - rl.last_operation_time < rl.operation_interval then
    rl.operation_interval - (t1 - rl.last_operation_time)
  else 0

/-- `RateLimiter.wait_if_needed`, with `t2` the `time.time()` read after
the (possible) sleep: it is stamped as the new last-operation instant. -/
def RateLimiter.wait_if_needed (rl : RateLimiter) (t2 : ℚ) : RateLimiter :=
  { rl with last_operation_time := t2 }

/-! ## Helper lemmas -/

/-- When `allow_operation` denies, it has not touched the breaker. -/
theorem allow_operation_false_eq (b : CircuitBreaker) (t : ℚ)
    (h : (b.allow_operation t).1 = false) : (b.allow_operation t).2 = b := by
  unfold CircuitBreaker.allow_operation at *
  cases hs : b.state <;> simp [hs] at h ⊢
  split at h
  · simp_all
  · split <;> simp_all

/-- Every breaker call satisfies the edge discipline, from any state. -/
theorem breaker_step_edge_ok (b : CircuitBreaker) (e : BreakerEvent) :
    BreakerEdgeOK b e := by
  obtain ⟨s, fc, ft, rt, lf⟩ := b
  unfold BreakerEdgeOK CircuitBreaker.step
  cases e with
  | fail t =>
      cases s with
      | closed =>
          by_cases h : fc + 1 ≥ ft
          · exact Or.inr (Or.inl
              ⟨rfl, by simp [CircuitBreaker.record_failure, h], ⟨t, rfl⟩, h⟩)
          · left; simp [CircuitBreaker.record_failure, h]
      | opened =>
          left
          simp only [CircuitBreaker.record_failure]
          split <;> rfl
      | halfOpen =>
          by_cases h : fc + 1 ≥ ft
          · exact Or.inr (Or.inr (Or.inr (Or.inr
              ⟨rfl, by simp [CircuitBreaker.record_failure, h], ⟨t, rfl⟩⟩)))
          · left; simp [CircuitBreaker.record_failure, h]
  | succ =>
      cases s with
      | closed => left; simp [CircuitBreaker.record_success]
      | opened => left; simp [CircuitBreaker.record_success]
      | halfOpen =>
          exact Or.inr (Or.inr (Or.inr (Or.inl
            ⟨rfl, by simp [CircuitBreaker.record_success], rfl⟩)))
  | allow t =>
      cases s with
      | closed => left; rfl
      | opened =>
          by_cases h : t - lf > rt
          · exact Or.inr (Or.inr (Or.inl
              ⟨rfl, by simp [CircuitBreaker.allow_operation, h], t, rfl, h⟩))
          · left; simp [CircuitBreaker.allow_operation, h]
      | halfOpen => left; rfl

/-- Splitting a list by a Bool predicate preserves total length. -/
theorem length_filter_partition (p : α → Bool) (l : List α) :
    (l.filter p).length + (l.filter (fun a => !p a)).length = l.length := by
  induction l with
  | nil => rfl
  | cons a l ih =>
      by_cases h : p a = true <;>
        simp [List.filter_cons, h, ← ih] <;> omega

/-- The `retry_all` fold with an explicit accumulator: it counts the
successes and failures and appends one attempts-bumped copy of each
failing entry to the carried remainder queue. -/
theorem retryAll_foldl (outcome : DeadLetterEntry → ReplayOutcome)
    (q : List DeadLetterEntry) :
    ∀ s f rem, q.foldl (retryAllStep outcome) (s, f, rem) =
      (s + (q.filter (fun e => (outcome e).isOk)).length,
       f + (q.filter (fun e => !(outcome e).isOk)).length,
       rem ++ (q.filter (fun e => !(outcome e).isOk)).map
         (fun e => { e with attempts := e.attempts + 1 })) := by
  induction q with
  | nil => intro s f rem; simp
  | cons a q ih =>
      intro s f rem
      simp only [List.foldl_cons, List.filter_cons]
      cases h : outcome a with
      | ok =>
          simp only [retryAllStep, h, ReplayOutcome.isOk, ih,
            Bool.not_true, if_pos, Bool.false_eq_true, if_false]
          simp [Nat.add_assoc, Nat.add_comm 1]
      | failed =>
          simp only [retryAllStep, h, ReplayOutcome.isOk, ih,
            Bool.not_false, if_true, Bool.false_eq_true, if_false]
          simp [Nat.add_assoc, Nat.add_comm 1]
      | raised m =>
          simp only [retryAllStep, h, ReplayOutcome.isOk, ih,
            Bool.not_false, if_true, Bool.false_eq_true, if_false]
          simp [Nat.add_assoc, Nat.add_comm 1]

/-- The retry loop under all-failing attempts: no attempt returns, every
attempt records a failure, the back-off sleeps are exactly those of the
exception-raising attempts that are not the last scheduled attempt, and
the captured error is the last attempt's. -/
theorem retryLoop_all_failing (outcomes : Nat → Outcome α) (ts js : Nat → ℚ)
    (n : Nat) (delay : ℚ) :
    ∀ fuel attempt (b : CircuitBreaker) (le : Option String),
      (∀ i, i < fuel → (outcomes (attempt + i)).isFailing = true) →
      (retryLoop outcomes ts js n delay attempt fuel b le).result = none ∧
      (retryLoop outcomes ts js n delay attempt fuel b le).calls = fuel ∧
      (retryLoop outcomes ts js n delay attempt fuel b le).failures = fuel ∧
      (retryLoop outcomes ts js n delay attempt fuel b le).sleeps =
        backoffSleeps outcomes js n delay (attemptIdxs attempt fuel) ∧
      (retryLoop outcomes ts js n delay attempt fuel b le).lastExc =
        (if fuel = 0 then le
         else some ((outcomes (attempt + fuel - 1)).errMsg)) := by
  intro fuel
  induction fuel with
  | zero =>
      intro attempt b le h
      simp [retryLoop, backoffSleeps, attemptIdxs]
  | succ f ih =>
      intro attempt b le h
      have h0 : (outcomes attempt).isFailing = true := by
        have := h 0 (Nat.succ_pos f)
        simpa using this
      have hsh : ∀ i, i < f →
          (outcomes (attempt + 1 + i)).isFailing = true := by
        intro i hi
        have := h (i + 1) (Nat.succ_lt_succ hi)
        have e : attempt + (i + 1) = attempt + 1 + i := by omega
        rwa [e] at this
      cases ho : outcomes attempt with
      | ok v => rw [ho] at h0; simp [Outcome.isFailing] at h0
      | falsy =>
          obtain ⟨hr, hc, hf, hs, hl⟩ := ih (attempt + 1)
            (b.record_failure (ts attempt))
            (some "Operation returned False") hsh
          simp only [retryLoop, ho]
          refine ⟨hr, by rw [hc], by rw [hf], ?_, ?_⟩
          · simp only [attemptIdxs, backoffSleeps, List.filterMap_cons, ho]
            exact hs
          · rw [hl]
            cases f with
            | zero => simp [ho, Outcome.errMsg]
            | succ g =>
                simp only [Nat.succ_ne_zero, if_false]
                have e1 : attempt + 1 + (g + 1) - 1 = attempt + 1 + g := by
                  omega
                have e2 : attempt + (g + 1 + 1) - 1 = attempt + 1 + g := by
                  omega
                rw [e1, e2]
      | raises m =>
          obtain ⟨hr, hc, hf, hs, hl⟩ := ih (attempt + 1)
            (b.record_failure (ts attempt)) (some m) hsh
          simp only [retryLoop, ho]
          refine ⟨hr, by rw [hc], by rw [hf], ?_, ?_⟩
          · simp only [attemptIdxs, backoffSleeps, List.filterMap_cons, ho]
            rw [hs]
            by_cases hlt : attempt < n - 1 <;>
              simp [hlt, backoffSleeps]
          · rw [hl]
            cases f with
            | zero => simp [ho, Outcome.errMsg]
            | succ g =>
                simp only [Nat.succ_ne_zero, if_false]
                have e1 : attempt + 1 + (g + 1) - 1 = attempt + 1 + g := by
                  omega
                have e2 : attempt + (g + 1 + 1) - 1 = attempt + 1 + g := by
                  omega
                rw [e1, e2]

/-! ## Claim theorems -/

/-- C1 (evaluation of the code at the claim's own scenario): after
`set("today", {}, "A")` and `set("inbox", {}, "B")`, the call
`invalidate("today")` does NOT make `get("today", {})` a miss — it still
returns `"A"` (and `get("inbox", {})` still returns `"B"`).  Keys are
full-string digests `md5("today:{}")` while operation-wide invalidation
matches keys against the unrelated digest prefix `md5("today:")[:8]`,
which no key starts with, so the operation-only mode removes nothing. -/
theorem cache_invalidate_operation_is_noop :
    (((((ThingsCache.init String).set "today" "A" none [] 0).set "inbox"
        "B" none [] 0).invalidate (some "today") []).get "today" [] 1).1 =
      some "A" ∧
    (((((ThingsCache.init String).set "today" "A" none [] 0).set "inbox"
        "B" none [] 0).invalidate (some "today") []).get "inbox" [] 1).1 =
      some "B" :=
  of_decide_eq_true (by with_unfolding_all rfl)

/-- C2 (evaluation of the code at the failing input): with
`failure_threshold = 1` and `recovery_timeout = 60`, a failure at t = 0
opens the breaker; at t = 100 `allow_operation()` returns true and moves
to Half-Open, and a second `allow_operation()` call with no intervening
`record_success`/`record_failure` returns true AGAIN — the half-open
branch returns true unconditionally, so the trial call is not limited to
one. -/
theorem breaker_half_open_allows_repeatedly :
    (((CircuitBreaker.init 1 60).record_failure 0).allow_operation
        100).1 = true ∧
    (((CircuitBreaker.init 1 60).record_failure 0).allow_operation
        100).2.state = BreakerState.halfOpen ∧
    ((((CircuitBreaker.init 1 60).record_failure 0).allow_operation
        100).2.allow_operation 100).1 = true :=
  of_decide_eq_true (by with_unfolding_all rfl)

/-- C4: from the initial Closed state, every breaker call either leaves
the state fixed or moves along one of the four labelled edges —
Closed→Open on a failure once the counter reaches the threshold,
Open→Half-Open on an allow after the recovery timeout, Half-Open→Closed
on a success, Half-Open→Open on a failure; and concretely, with
`failure_threshold = 3`, three `record_failure` calls make
`allow_operation` false inside the recovery window and a fourth failure
keeps it false. -/
theorem breaker_transitions_only_on_edges (thr : Nat) (rt : ℚ)
    (es : List BreakerEvent) (e : BreakerEvent) :
    BreakerEdgeOK ((CircuitBreaker.init thr rt).run es) e ∧
    (((CircuitBreaker.init 3 60).run [.fail 0, .fail 1, .fail 2]).state =
      BreakerState.opened ∧
     (((CircuitBreaker.init 3 60).run
        [.fail 0, .fail 1, .fail 2]).allow_operation 10).1 = false ∧
     ((((CircuitBreaker.init 3 60).run
        [.fail 0, .fail 1, .fail 2]).record_failure 11).allow_operation
        12).1 = false) :=
  ⟨breaker_step_edge_ok _ e, of_decide_eq_true (by with_unfolding_all rfl)⟩

/-- C3 counterexample: with `func` returning a falsy result on every
attempt under `max_retries = 3`, every attempt records a failure
(`failure_count` ends at 3) yet the executor performs NO back-off sleep
at all — refuting the claim that an attempt failing by a falsy result is
followed by a `base_delay * 2^attempt * jitter` sleep while attempts
remain (only the exception branch sleeps). -/
theorem retry_falsy_failures_sleep_nothing :
    (retry_operation true 0 (fun _ => (Outcome.falsy : Outcome Bool))
      (fun _ => 0) (fun _ => 1) 3 1 none [] 0 (CircuitBreaker.init 5 60)
      []).calls = 3 ∧
    (retry_operation true 0 (fun _ => (Outcome.falsy : Outcome Bool))
      (fun _ => 0) (fun _ => 1) 3 1 none [] 0 (CircuitBreaker.init 5 60)
      []).breaker.failure_count = 3 ∧
    (retry_operation true 0 (fun _ => (Outcome.falsy : Outcome Bool))
      (fun _ => 0) (fun _ => 1) 3 1 none [] 0 (CircuitBreaker.init 5 60)
      []).sleeps = [] :=
  of_decide_eq_true (by with_unfolding_all rfl)

/-- C3 amended: in the retry loop, every failing attempt — falsy result
or exception alike — records a breaker failure; the back-off sleeps are
exactly one sleep of `delay * 2^attempt * jitter` for each
exception-raising attempt with attempts remaining (falsy results proceed
to the next attempt with no sleep), each jitter sample lying in
[0.8, 1.2] as drawn by `random.uniform`. -/
theorem retry_backoff_shape (outcomes : Nat → Outcome α) (ts js : Nat → ℚ)
    (n : Nat) (delay : ℚ) (b : CircuitBreaker)
    (hfail : ∀ i, (outcomes i).isFailing = true)
    (hjs : ∀ i, (4 : ℚ) / 5 ≤ js i ∧ js i ≤ 6 / 5) :
    (retryLoop outcomes ts js n delay 0 n b none).failures = n ∧
    (retryLoop outcomes ts js n delay 0 n b none).sleeps =
      backoffSleeps outcomes js n delay (attemptIdxs 0 n) ∧
    ∀ q ∈ (retryLoop outcomes ts js n delay 0 n b none).sleeps,
      ∃ i, i < n - 1 ∧ q = delay * 2 ^ i * js i ∧
        (4 : ℚ) / 5 ≤ js i ∧ js i ≤ 6 / 5 := by
  obtain ⟨hr, hc, hf, hs, hl⟩ := retryLoop_all_failing outcomes ts js n
    delay n 0 b none (fun i _ => by simpa using hfail i)
  refine ⟨hf, hs, ?_⟩
  intro q hq
  rw [hs] at hq
  unfold backoffSleeps at hq
  obtain ⟨i, _, hfi⟩ := List.mem_filterMap.mp hq
  cases ho : outcomes i with
  | ok v => rw [ho] at hfi; simp at hfi
  | falsy => rw [ho] at hfi; simp at hfi
  | raises m =>
      rw [ho] at hfi
      simp only at hfi
      by_cases hlt : i < n - 1
      · rw [if_pos hlt] at hfi
        exact ⟨i, hlt, (Option.some.inj hfi).symm, hjs i⟩
      · rw [if_neg hlt] at hfi
        exact absurd hfi (by simp)

/-- C3 amended, instantiated: three exception-raising attempts under
`max_retries = 3` record three failures and sleep exactly after the first
two attempts. -/
theorem retry_backoff_shape_witness :
    (retryLoop (fun _ => (Outcome.raises "boom" : Outcome Bool))
      (fun _ => 0) (fun _ => 1) 3 1 0 3 (CircuitBreaker.init 5 60)
      none).failures = 3 ∧
    (retryLoop (fun _ => (Outcome.raises "boom" : Outcome Bool))
      (fun _ => 0) (fun _ => 1) 3 1 0 3 (CircuitBreaker.init 5 60)
      none).sleeps =
      backoffSleeps (fun _ => (Outcome.raises "boom" : Outcome Bool))
        (fun _ => 1) 3 1 (attemptIdxs 0 3) :=
  ⟨(retry_backoff_shape (fun _ => (Outcome.raises "boom" : Outcome Bool))
      (fun _ => 0) (fun _ => 1) 3 1 (CircuitBreaker.init 5 60)
      (fun _ => rfl) (fun _ => ⟨by norm_num, by norm_num⟩)).1,
   (retry_backoff_shape (fun _ => (Outcome.raises "boom" : Outcome Bool))
      (fun _ => 0) (fun _ => 1) 3 1 (CircuitBreaker.init 5 60)
      (fun _ => rfl) (fun _ => ⟨by norm_num, by norm_num⟩)).2.1⟩

/-- C5 counterexample: an operation that raises on all three attempts,
called with `operation_name = "add-todo"` and `params = {}` (supplied but
empty), exhausts its retries and returns failure — yet appends NOTHING to
the dead-letter queue, because the append is guarded by the truthiness of
`params` and an empty dict is falsy. -/
theorem retry_exhaustion_empty_params_no_dlq :
    (retry_operation true 0
      (fun _ => (Outcome.raises "boom" : Outcome Bool)) (fun _ => 0)
      (fun _ => 1) 3 1 (some "add-todo") [] 0 (CircuitBreaker.init 5 60)
      []).dlq = [] ∧
    (retry_operation true 0
      (fun _ => (Outcome.raises "boom" : Outcome Bool)) (fun _ => 0)
      (fun _ => 1) 3 1 (some "add-todo") [] 0 (CircuitBreaker.init 5 60)
      []).result = none ∧
    (retry_operation true 0
      (fun _ => (Outcome.raises "boom" : Outcome Bool)) (fun _ => 0)
      (fun _ => 1) 3 1 (some "add-todo") [] 0 (CircuitBreaker.init 5 60)
      []).calls = 3 :=
  of_decide_eq_true (by with_unfolding_all rfl)

/-- C5 amended: for every operation failing on all attempts, under
`max_retries = 3` and supplied NON-EMPTY (truthy) `operation_name` and
`params`, when both gates allow the call, exactly one dead-letter entry is
appended — with `attempts = 3` and the last attempt's error message —,
the call returns failure, and exactly 3 invocations are made with no
further automatic retries. -/
theorem retry_exhaustion_appends_dlq_entry (outcomes : Nat → Outcome α)
    (ts js : Nat → ℚ) (delay : ℚ) (name : String) (params : Params)
    (tGate tDlq : ℚ) (b : CircuitBreaker) (dlq : List DeadLetterEntry)
    (hfail : ∀ i, (outcomes i).isFailing = true)
    (hgate : (b.allow_operation tGate).1 = true)
    (hname : name ≠ "") (hparams : params ≠ []) :
    (retry_operation true tGate outcomes ts js 3 delay (some name) params
      tDlq b dlq).dlq =
      dlq ++ [⟨name, params, (outcomes 2).errMsg, 3, tDlq⟩] ∧
    (retry_operation true tGate outcomes ts js 3 delay (some name) params
      tDlq b dlq).result = none ∧
    (retry_operation true tGate outcomes ts js 3 delay (some name) params
      tDlq b dlq).calls = 3 := by
  obtain ⟨hr, hc, hf, hs, hl⟩ := retryLoop_all_failing outcomes ts js 3
    delay 3 0 (b.allow_operation tGate).2 none
    (fun i _ => by simpa using hfail i)
  norm_num at hl
  have hne : (name == "") = false := beq_eq_false_iff_ne.mpr hname
  have hpe : params.isEmpty = false := by
    cases params with
    | nil => exact absurd rfl hparams
    | cons a l => rfl
  simp only [retry_operation, Bool.not_true, Bool.false_eq_true, if_false,
    hgate, hr, hl, hne, hpe, pyTruthyStr, add_failed_operation,
    Option.getD_some, Option.isSome_some, Bool.not_false, Bool.and_true,
    Bool.true_and, if_true]
  exact ⟨trivial, trivial, hc⟩

/-- C5 amended, instantiated at a concrete always-raising operation with
a non-empty name and params. -/
theorem retry_exhaustion_appends_dlq_entry_witness :
    (retry_operation true 0
      (fun _ => (Outcome.raises "err" : Outcome Bool)) (fun _ => 0)
      (fun _ => 1) 3 1 (some "add-todo") [("title", "x")] 7
      (CircuitBreaker.init 5 60) []).dlq =
      [⟨"add-todo", [("title", "x")], "err", 3, 7⟩] ∧
    (retry_operation true 0
      (fun _ => (Outcome.raises "err" : Outcome Bool)) (fun _ => 0)
      (fun _ => 1) 3 1 (some "add-todo") [("title", "x")] 7
      (CircuitBreaker.init 5 60) []).result = none ∧
    (retry_operation true 0
      (fun _ => (Outcome.raises "err" : Outcome Bool)) (fun _ => 0)
      (fun _ => 1) 3 1 (some "add-todo") [("title", "x")] 7
      (CircuitBreaker.init 5 60) []).calls = 3 :=
  retry_exhaustion_appends_dlq_entry
    (fun _ => (Outcome.raises "err" : Outcome Bool)) (fun _ => 0)
    (fun _ => 1) 1 "add-todo" [("title", "x")] 0 7
    (CircuitBreaker.init 5 60) [] (fun _ => rfl) rfl (by decide)
    (by decide)

/-- C7: when the availability probe reports the app unreachable, or the
circuit breaker's `allow_operation` denies, `retry_operation` returns a
failure signal with the operation never invoked, no sleep performed, and
the breaker and dead-letter queue left exactly as they were. -/
theorem retry_fails_fast_when_gated (available : Bool) (tGate : ℚ)
    (outcomes : Nat → Outcome α) (ts js : Nat → ℚ) (n : Nat) (delay : ℚ)
    (name : Option String) (params : Params) (tDlq : ℚ)
    (b : CircuitBreaker) (dlq : List DeadLetterEntry)
    (h : available = false ∨ (b.allow_operation tGate).1 = false) :
    (retry_operation available tGate outcomes ts js n delay name params
      tDlq b dlq).result = none ∧
    (retry_operation available tGate outcomes ts js n delay name params
      tDlq b dlq).calls = 0 ∧
    (retry_operation available tGate outcomes ts js n delay name params
      tDlq b dlq).sleeps = [] ∧
    (retry_operation available tGate outcomes ts js n delay name params
      tDlq b dlq).breaker = b ∧
    (retry_operation available tGate outcomes ts js n delay name params
      tDlq b dlq).dlq = dlq := by
  cases h with
  | inl ha =>
      subst ha
      simp [retry_operation]
  | inr hg =>
      cases hav : available with
      | false => simp [retry_operation]
      | true =>
          have hb := allow_operation_false_eq b tGate hg
          simp only [retry_operation, hg, hb, Bool.not_true,
            Bool.false_eq_true, if_false, Bool.not_false, if_true]
          exact ⟨trivial, trivial, trivial, trivial, trivial⟩

/-- C7, instantiated: a breaker opened by a failure at t = 0 denies at
t = 10 (inside the 60-second window) and the call fails fast without
invoking the operation or touching any state. -/
theorem retry_fails_fast_when_gated_witness :
    (retry_operation true 10
      (fun _ => (Outcome.ok true : Outcome Bool)) (fun _ => 0)
      (fun _ => 1) 3 1 (some "add-todo") [("title", "x")] 0
      ((CircuitBreaker.init 1 60).record_failure 0) []).result = none ∧
    (retry_operation true 10
      (fun _ => (Outcome.ok true : Outcome Bool)) (fun _ => 0)
      (fun _ => 1) 3 1 (some "add-todo") [("title", "x")] 0
      ((CircuitBreaker.init 1 60).record_failure 0) []).calls = 0 ∧
    (retry_operation true 10
      (fun _ => (Outcome.ok true : Outcome Bool)) (fun _ => 0)
      (fun _ => 1) 3 1 (some "add-todo") [("title", "x")] 0
      ((CircuitBreaker.init 1 60).record_failure 0) []).sleeps = [] ∧
    (retry_operation true 10
      (fun _ => (Outcome.ok true : Outcome Bool)) (fun _ => 0)
      (fun _ => 1) 3 1 (some "add-todo") [("title", "x")] 0
      ((CircuitBreaker.init 1 60).record_failure 0) []).breaker =
      (CircuitBreaker.init 1 60).record_failure 0 ∧
    (retry_operation true 10
      (fun _ => (Outcome.ok true : Outcome Bool)) (fun _ => 0)
      (fun _ => 1) 3 1 (some "add-todo") [("title", "x")] 0
      ((CircuitBreaker.init 1 60).record_failure 0) []).dlq = [] :=
  retry_fails_fast_when_gated true 10
    (fun _ => (Outcome.ok true : Outcome Bool)) (fun _ => 0) (fun _ => 1)
    3 1 (some "add-todo") [("title", "x")] 0
    ((CircuitBreaker.init 1 60).record_failure 0) []
    (Or.inr (of_decide_eq_true (by with_unfolding_all rfl)))

/-- C10: when retries are exhausted but the supplied `params` mapping is
empty, or the supplied `operation_name` is falsy (empty string or
`None`), `retry_operation` records NO dead-letter entry at all — the
append is guarded by truthiness, not mere presence. -/
theorem retry_exhaustion_falsy_ids_skip_dlq (outcomes : Nat → Outcome α)
    (ts js : Nat → ℚ) (n : Nat) (delay : ℚ) (name : Option String)
    (params : Params) (tGate tDlq : ℚ) (b : CircuitBreaker)
    (dlq : List DeadLetterEntry)
    (hfail : ∀ i, (outcomes i).isFailing = true)
    (hgate : (b.allow_operation tGate).1 = true)
    (hfalsy : params = [] ∨ pyTruthyStr name = false) :
    (retry_operation true tGate outcomes ts js n delay name params tDlq b
      dlq).dlq = dlq ∧
    (retry_operation true tGate outcomes ts js n delay name params tDlq b
      dlq).result = none ∧
    (retry_operation true tGate outcomes ts js n delay name params tDlq b
      dlq).calls = n := by
  obtain ⟨hr, hc, hf, hs, hl⟩ := retryLoop_all_failing outcomes ts js n
    delay n 0 (b.allow_operation tGate).2 none
    (fun i _ => by simpa using hfail i)
  have hguard : (pyTruthyStr name && !params.isEmpty &&
      (retryLoop outcomes ts js n delay 0 n
        (b.allow_operation tGate).2 none).lastExc.isSome) = false := by
    cases hfalsy with
    | inl hp => subst hp; simp
    | inr hn => simp [hn]
  simp only [retry_operation, Bool.not_true, Bool.false_eq_true, if_false,
    hgate, hr, hguard, Bool.not_false, if_true]
  exact ⟨trivial, trivial, hc⟩

/-- C10, instantiated: empty params with a truthy name, three raising
attempts — the queue stays empty. -/
theorem retry_exhaustion_falsy_ids_skip_dlq_witness :
    (retry_operation true 0
      (fun _ => (Outcome.raises "err2" : Outcome Bool)) (fun _ => 0)
      (fun _ => 1) 3 1 (some "update-todo") [] 0
      (CircuitBreaker.init 5 60) []).dlq = [] ∧
    (retry_operation true 0
      (fun _ => (Outcome.raises "err2" : Outcome Bool)) (fun _ => 0)
      (fun _ => 1) 3 1 (some "update-todo") [] 0
      (CircuitBreaker.init 5 60) []).result = none ∧
    (retry_operation true 0
      (fun _ => (Outcome.raises "err2" : Outcome Bool)) (fun _ => 0)
      (fun _ => 1) 3 1 (some "update-todo") [] 0
      (CircuitBreaker.init 5 60) []).calls = 3 :=
  retry_exhaustion_falsy_ids_skip_dlq
    (fun _ => (Outcome.raises "err2" : Outcome Bool)) (fun _ => 0)
    (fun _ => 1) 3 1 (some "update-todo") [] 0 0
    (CircuitBreaker.init 5 60) [] (fun _ => rfl) rfl (Or.inl rfl)

/-- C4, instantiated: one failure from the five-failure default
configuration, probed by a second failure event. -/
theorem breaker_transitions_only_on_edges_witness :
    BreakerEdgeOK ((CircuitBreaker.init 5 60).run [.fail 1])
      (.fail 2) ∧
    (((CircuitBreaker.init 3 60).run [.fail 0, .fail 1, .fail 2]).state =
      BreakerState.opened ∧
     (((CircuitBreaker.init 3 60).run
        [.fail 0, .fail 1, .fail 2]).allow_operation 10).1 = false ∧
     ((((CircuitBreaker.init 3 60).run
        [.fail 0, .fail 1, .fail 2]).record_failure 11).allow_operation
        12).1 = false) :=
  breaker_transitions_only_on_edges 5 60 [.fail 1] (.fail 2)

/-- C6: `retry_all` processes the whole queue snapshot, reports
`retried` = number of entries processed and `failed` = number still
failing, drops every entry that now succeeds, and keeps each
still-failing entry — in order — with its attempt count incremented by
exactly one. -/
theorem dlq_retry_all_spec (q : List DeadLetterEntry)
    (outcome : DeadLetterEntry → ReplayOutcome) :
    (retry_all q outcome).1.retried = q.length ∧
    (retry_all q outcome).1.failed =
      (q.filter (fun e => !(outcome e).isOk)).length ∧
    (retry_all q outcome).2 =
      (q.filter (fun e => !(outcome e).isOk)).map
        (fun e => { e with attempts := e.attempts + 1 }) := by
  unfold retry_all
  cases hq : q with
  | nil => simp
  | cons a l =>
      rw [← hq]
      have hne : q.isEmpty = false := by rw [hq]; rfl
      simp only [hne, Bool.false_eq_true, if_false]
      rw [retryAll_foldl]
      refine ⟨?_, by simp, by simp⟩
      simp only [Nat.zero_add]
      exact length_filter_partition (fun e => (outcome e).isOk) q

/-- C6, instantiated at the spec's example: a queue of two entries where
the first now succeeds and the second still fails gives
`{retried: 2, failed: 1}`, with the first entry dropped and the second
kept at `attempts` bumped from 3 to 4. -/
theorem dlq_retry_all_spec_witness :
    (retry_all
      [⟨"add-todo", [("title", "x")], "errA", 3, 0⟩,
       ⟨"update-todo", [("id", "7")], "errB", 3, 0⟩]
      (fun e => if e.operation == "add-todo" then .ok else .failed)).1.retried
      = 2 ∧
    (retry_all
      [⟨"add-todo", [("title", "x")], "errA", 3, 0⟩,
       ⟨"update-todo", [("id", "7")], "errB", 3, 0⟩]
      (fun e => if e.operation == "add-todo" then .ok else .failed)).1.failed
      = 1 ∧
    (retry_all
      [⟨"add-todo", [("title", "x")], "errA", 3, 0⟩,
       ⟨"update-todo", [("id", "7")], "errB", 3, 0⟩]
      (fun e => if e.operation == "add-todo" then .ok else .failed)).2 =
      [⟨"update-todo", [("id", "7")], "errB", 4, 0⟩] :=
  dlq_retry_all_spec
    [⟨"add-todo", [("title", "x")], "errA", 3, 0⟩,
     ⟨"update-todo", [("id", "7")], "errB", 3, 0⟩]
    (fun e => if e.operation == "add-todo" then .ok else .failed)

/-- C8 counterexample: a `set` call and an `invalidate` call leave both
the hit and the miss counter untouched (here still 0 after a fresh
cache's set and invalidate) — refuting that every `get`/`set`/`invalidate`
call increments a hit or miss counter: only `get` counts. -/
theorem cache_set_invalidate_do_not_count :
    (((ThingsCache.init String).set "today" "A" none [] 0).hit_count = 0 ∧
     ((ThingsCache.init String).set "today" "A" none [] 0).miss_count =
       0) ∧
    ((((ThingsCache.init String).set "today" "A" none [] 0).invalidate
        (some "today") []).hit_count = 0 ∧
     (((ThingsCache.init String).set "today" "A" none [] 0).invalidate
        (some "today") []).miss_count = 0) :=
  of_decide_eq_true (by with_unfolding_all rfl)

/-- C8 amended: every `get` increments exactly one of the hit/miss
counters; `set` and `invalidate` leave both counters unchanged; and
`get_stats` reports the entry count, the hit and miss counters and the
derived totals (with `hit_rate` the percentage the code formats). -/
theorem cache_counters_only_on_get (c : ThingsCache α) (op : String)
    (kwargs : Params) (now : ℚ) (v : α) (ttl : Option ℚ)
    (opInv : Option String) (kwInv : Params) :
    (((c.get op kwargs now).2.hit_count = c.hit_count + 1 ∧
      (c.get op kwargs now).2.miss_count = c.miss_count) ∨
     ((c.get op kwargs now).2.hit_count = c.hit_count ∧
      (c.get op kwargs now).2.miss_count = c.miss_count + 1)) ∧
    (c.set op v ttl kwargs now).hit_count = c.hit_count ∧
    (c.set op v ttl kwargs now).miss_count = c.miss_count ∧
    (c.invalidate opInv kwInv).hit_count = c.hit_count ∧
    (c.invalidate opInv kwInv).miss_count = c.miss_count ∧
    c.get_stats.entries = c.cache.length ∧
    c.get_stats.hits = c.hit_count ∧
    c.get_stats.misses = c.miss_count ∧
    c.get_stats.total_requests = c.hit_count + c.miss_count := by
  refine ⟨?_, rfl, rfl, ?_, ?_, rfl, rfl, rfl, rfl⟩
  · simp only [ThingsCache.get]
    cases hf : c.cache.find?
        (fun e => e.1 == ThingsCache.make_key op kwargs) with
    | none => right; exact ⟨rfl, rfl⟩
    | some e =>
        by_cases hn : now < e.2.2
        · left; simp [hn]
        · right; simp [hn]
  · simp only [ThingsCache.invalidate]
    split
    · rfl
    · split <;> rfl
  · simp only [ThingsCache.invalidate]
    split
    · rfl
    · split <;> rfl

/-- C8 amended, instantiated on a fresh cache: its first get counts one
hit or one miss, set and invalidate preserve the counters, and the stats
fields mirror the state. -/
theorem cache_counters_only_on_get_witness :
    ((((ThingsCache.init String).get "today" [] 0).2.hit_count =
        (ThingsCache.init String).hit_count + 1 ∧
      ((ThingsCache.init String).get "today" [] 0).2.miss_count =
        (ThingsCache.init String).miss_count) ∨
     (((ThingsCache.init String).get "today" [] 0).2.hit_count =
        (ThingsCache.init String).hit_count ∧
      ((ThingsCache.init String).get "today" [] 0).2.miss_count =
        (ThingsCache.init String).miss_count + 1)) ∧
    ((ThingsCache.init String).set "today" "A" none [] 0).hit_count =
      (ThingsCache.init String).hit_count ∧
    ((ThingsCache.init String).set "today" "A" none [] 0).miss_count =
      (ThingsCache.init String).miss_count ∧
    ((ThingsCache.init String).invalidate (some "x") []).hit_count =
      (ThingsCache.init String).hit_count ∧
    ((ThingsCache.init String).invalidate (some "x") []).miss_count =
      (ThingsCache.init String).miss_count ∧
    (ThingsCache.init String).get_stats.entries =
      (ThingsCache.init String).cache.length ∧
    (ThingsCache.init String).get_stats.hits =
      (ThingsCache.init String).hit_count ∧
    (ThingsCache.init String).get_stats.misses =
      (ThingsCache.init String).miss_count ∧
    (ThingsCache.init String).get_stats.total_requests =
      (ThingsCache.init String).hit_count +
        (ThingsCache.init String).miss_count :=
  cache_counters_only_on_get (ThingsCache.init String) "today" [] 0 "A"
    none (some "x") []

/-- C9: under the sleep semantics — the second call's post-sleep clock
read `t4` is at least its entry read `t3` plus the computed sleep —
two consecutive `wait_if_needed` calls stamp instants at least
`60 / operations_per_minute` apart, and the later stamp `t4` is recorded
before returning. -/
theorem rate_limiter_spacing (opm t2 t3 t4 : ℚ)
    (hsleep : t3 + ((RateLimiter.init opm).wait_if_needed
      t2).sleepDuration t3 ≤ t4) :
    (((RateLimiter.init opm).wait_if_needed t2).wait_if_needed
      t4).last_operation_time = t4 ∧
    t2 + 60 / opm ≤ t4 := by
  refine ⟨rfl, ?_⟩
  simp only [RateLimiter.init, RateLimiter.wait_if_needed,
    RateLimiter.sleepDuration] at hsleep
  split at hsleep
  · linarith
  · next h => linarith [not_lt.mp h]

/-- C9, instantiated: at one operation per second, a first call stamped
at t = 1 forces the second call (entered immediately at t = 1) to sleep
to t = 2 before stamping. -/
theorem rate_limiter_spacing_witness :
    (((RateLimiter.init 60).wait_if_needed 1).wait_if_needed
      2).last_operation_time = 2 ∧
    (1 : ℚ) + 60 / 60 ≤ 2 :=
  rate_limiter_spacing 60 1 1 2
    (by norm_num [RateLimiter.init, RateLimiter.wait_if_needed,
      RateLimiter.sleepDuration])

end ThingsMCP
